import Mathlib

/-!
Shallow embedding of the workflow-orchestration core of the
`verifacts-backend` repository (src/app/services/orchestrator.py and the
collaborator entry points it calls), together with theorems settling the
frozen claims C1..C10.

Modelling conventions:
* Python dict/JSON values are modelled by `PyVal`; `dict.get(k, d)` is
  `PyVal.getD`, truthiness is `PyVal.truthy`.
* The LLM- and HTTP-backed collaborator calls are opaque asynchronous
  operations; each call site receives its outcome from an oracle record, so
  theorems quantify over every possible collaborator behaviour.  The
  *structure around* those calls (try/except, fallbacks, dict shapes) is
  translated from the source.
* A Python float literal is modelled as a `Rat`; no arithmetic or comparison
  is ever performed on these values by the orchestration code.
* Python `str(x)` (used once, on the summary) is modelled by `PyVal.pyStr`;
  no claim depends on its rendering of containers.
-/

/-- Model of a Python value as stored in the untyped dict fields of the
workflow state (JSON-like). -/
inductive PyVal where
  | none : PyVal
  | str : String → PyVal
  | rat : Rat → PyVal
  | list : List PyVal → PyVal
  | dict : List (String × PyVal) → PyVal

/-- First binding of a key in an association list (Python dict lookup). -/
def assocLookup (k : String) : List (String × PyVal) → Option PyVal
  | [] => Option.none
  | (k', v) :: rest => if k' = k then some v else assocLookup k rest

/-- `d.get(k, default)`.  The orchestration code only calls `.get` on values
that are dicts in every reachable state; on a non-dict we return the default
(where CPython would raise `AttributeError`, a shape excluded by the
collaborator contracts). -/
def PyVal.getD (v : PyVal) (k : String) (d : PyVal) : PyVal :=
  match v with
  | .dict kvs => (assocLookup k kvs).getD d
  | _ => d

/-- `k in d` (Python key containment). -/
def PyVal.hasKey (v : PyVal) (k : String) : Bool :=
  match v with
  | .dict kvs => (assocLookup k kvs).isSome
  | _ => false

/-- Python truthiness of a value. -/
def PyVal.truthy : PyVal → Bool
  | .none => false
  | .str s => s ≠ ""
  | .rat q => q ≠ 0
  | .list xs => ¬ xs.isEmpty
  | .dict kvs => ¬ kvs.isEmpty

/-- Extract a Lean string from a `PyVal` when it is a Python `str`. -/
def PyVal.asStr : PyVal → Option String
  | .str s => some s
  | _ => Option.none

/-- Elements of a Python list value (empty for non-lists). -/
def PyVal.items : PyVal → List PyVal
  | .list xs => xs
  | _ => []

/-- Python `str(x)`: identity on strings; the orchestrator applies it only to
the summary field, whose rendering no claim inspects. -/
def PyVal.pyStr : PyVal → String
  | .none => "None"
  | .str s => s
  | .rat q => toString q
  | .list _ => "[...]"
  | .dict _ => "{...}"

/-- `a or b` on Python values. -/
def pyOr (a b : PyVal) : PyVal := if a.truthy then a else b

/-- `x in ["low", "very_low"]` as tested on a trust-level value
(orchestrator.py lines 46 and 226). -/
def isLowTrust (v : PyVal) : Bool :=
  match v with
  | .str s => s = "low" ∨ s = "very_low"
  | _ => false

/-- The `WorkflowState` TypedDict (orchestrator.py lines 24-31), plus the
three keys `compile_report_node` writes into its local state dict
(`overall_verdict`, `summary`, `sources`), absent (`Option.none`) until
written.  These three are *not* channels of the `StateGraph` schema, and
the compiler node never returns its state, so they stay absent in every
graph-level state of a run (see `compile_report_node`/`graphInvoke`). -/
structure WorkflowState where
  url : String
  selection : String
  credibility : PyVal
  claims : List String
  fact_checks : List PyVal
  search_insights : List PyVal
  error : Option String
  overall_verdict : Option PyVal := Option.none
  summary : Option PyVal := Option.none
  sources : Option (List String) := Option.none

/-- Truthiness of `state.get("error")`: set and non-empty. -/
def errTruthy (s : WorkflowState) : Bool :=
  match s.error with
  | some e => e ≠ ""
  | Option.none => false

/-- The initial state built by `run_orchestrator` (lines 260-268). -/
def initialState (url selection : String) : WorkflowState :=
  { url := url
    selection := selection
    credibility := .dict []
    claims := []
    fact_checks := []
    search_insights := []
    error := Option.none }

namespace SourceCredibilityAgent

/-- Outcomes of the two external calls inside `SourceCredibilityAgent.run`
(identify/agent.py): the raw credibility tool and the LLM verdict chain.  A
chain success is the parsed JSON object (a dict). -/
structure Oracle where
  tool : Except String PyVal
  chain : Except String (List (String × PyVal))

/-- The hard-coded fallback verdict returned when the LLM chain raises
(identify/agent.py lines 89-98). -/
def fallbackVerdict (url : String) : PyVal :=
  .dict [("url", .str url), ("trust_level", .str "unknown"), ("score", .rat 0),
         ("red_flags", .list [.str "error_generating_verdict"]),
         ("summary", .str "Could not generate credibility verdict due to an error."),
         ("source_used", .list [.str url])]

/-- `SourceCredibilityAgent.run` (identify/agent.py lines 55-98).  The tool
call on line 67 is *outside* the try block, so a tool fault propagates to the
caller; an LLM fault yields the `trust_level = "unknown"` fallback; a success
yields the flat `final_verdict` dict of lines 77-84 (note: no "verdict" key). -/
def run (url : String) (o : Oracle) : Except String PyVal :=
  match o.tool with
  | .error e => .error e
  | .ok _report =>
    match o.chain with
    | .error _ => .ok (fallbackVerdict url)
    | .ok verdict =>
      let get := fun (k : String) => (assocLookup k verdict).getD PyVal.none
      .ok (.dict [("url", .str url),
                  ("trust_level", get "trust_level"),
                  ("score", get "score"),
                  ("red_flags", get "red_flags"),
                  ("summary", get "summary"),
                  ("source_used",
                    if (get "source_used").truthy then get "source_used"
                    else .list [.str url])])

end SourceCredibilityAgent

/-- `credibility_node` (orchestrator.py lines 35-51). -/
def credibility_node (o : SourceCredibilityAgent.Oracle) (s : WorkflowState) :
    WorkflowState :=
  if s.url = "" then
    { s with error := some "No URL provided for credibility check" }
  else
    match SourceCredibilityAgent.run s.url o with
    | .error e => { s with error := some ("Credibility check failed: " ++ e) }
    | .ok report =>
      let s' := { s with credibility := report }
      if isLowTrust (report.getD "trust_level" (.str "unknown")) then
        { s' with error := some "Source credibility too low to proceed" }
      else s'

/-- `decide_next_step` (orchestrator.py lines 224-228).  Note the read path:
`state.get("credibility", {}).get("verdict", {}).get("trust_level", "unknown")`
— it looks *inside a nested "verdict" key*.  `"__end__"` is langgraph's END
sentinel. -/
def decide_next_step (s : WorkflowState) : String :=
  let cred := ((s.credibility.getD "verdict" (.dict [])).getD "trust_level"
    (.str "unknown"))
  if isLowTrust cred then "__end__" else "extraction_node"

namespace ClaimExtractionAgent

/-- The fields of `core.models.Claim` read by the orchestrator (the remaining
fields — provenance, normalized_text, confidence, claim_id — never influence
the engine). -/
structure Claim where
  text : String
  claim_type : String

/-- Outcomes of the two top-level branches of `ClaimExtractionAgent.run`
(claims/agent.py lines 51-106): the user-selection branch (lines 51-72) and
the url-scraping branch (lines 74-84 followed by lines 86-106); each branch
is a composite of scraping tools and LLM calls and is modelled as an opaque
collaborator outcome. -/
structure Oracle where
  selectionBranch : Except String (List Claim)
  urlBranch : Except String (List Claim)

/-- `_create_ambiguous_claim` restricted to the observed fields
(claims/agent.py lines 194-209). -/
def createAmbiguousClaim (text : String) : Claim :=
  { text := text, claim_type := "ambiguous" }

/-- `ClaimExtractionAgent.run(self, url, selection=None)` (claims/agent.py
line 42): the branch on the truthiness of `selection` then `url`, with the
final no-text fallback of lines 86-88. -/
def run (url selection : PyVal) (o : Oracle) : Except String (List Claim) :=
  if selection.truthy then o.selectionBranch
  else if url.truthy then o.urlBranch
  else .ok [createAmbiguousClaim "No text available for claim extraction."]

end ClaimExtractionAgent

/-- `extraction_node` (orchestrator.py lines 53-71).  Line 65 calls
`agent.run(verdict)`: the *dict* built on lines 59-64 is passed as the
agent's `url` parameter and the agent's `selection` parameter is left at its
Python default `None`. -/
def extraction_node (o : ClaimExtractionAgent.Oracle) (s : WorkflowState) :
    WorkflowState :=
  if errTruthy s then s
  else
    -- the `verdict` dict of lines 59-64, passed as the agent's url parameter
    match ClaimExtractionAgent.run
      (.dict [("url", .str s.url),
              ("selection", .str s.selection),
              ("trust_level", s.credibility.getD "trust_level" .none),
              ("score", s.credibility.getD "score" .none)])
      PyVal.none o with
    | .ok claims =>
      { s with claims :=
          (claims.filter (fun c => c.claim_type = "factual")).map (·.text) }
    | .error e => { s with error := some ("Claim extraction failed: " ++ e) }

namespace FactCheckAgent

/-- Outcomes of the collaborator calls inside `FactCheckAgent.run`
(fact_checker/agent.py): `GoogleFactCheckTool._search` — which catches all of
its own faults and always returns a dict (tools.py lines 26-43) — and the LLM
verdict chain, whose success is the parsed JSON object. -/
structure Oracle where
  tool : PyVal
  chain : Except String (List (String × PyVal))

/-- The placeholder verdict dict built when the LLM chain raises
(fact_checker/agent.py lines 69-81). -/
def placeholder (claim : String) (e : String) : PyVal :=
  .dict [("agent", .str "fact_checker"), ("claim", .str claim),
         ("verdict", .dict [("verdict", .str "unverified"),
                            ("confidence", .rat (1/10)),
                            ("explanation", .str "Fact-check processing failed"),
                            ("sources", .list [])]),
         ("error", .str e)]

/-- `FactCheckAgent.run` (fact_checker/agent.py lines 47-81).  Because the
tool absorbs its own faults, `run` is total: every outcome produces a result
dict, so the `except` clause of `factcheck_node` (orchestrator.py lines
84-85) is unreachable. -/
def run (claim : String) (o : Oracle) : PyVal :=
  match o.chain with
  | .ok verdict =>
    .dict [("agent", .str "fact_checker"), ("claim", .str claim),
           ("verdict", .dict verdict), ("raw_tool_result", o.tool)]
  | .error e => placeholder claim e

end FactCheckAgent

/-- The `for claim in state["claims"]` loop of `factcheck_node`
(orchestrator.py lines 78-82); the oracle is indexed by the position of the
claim, one outcome per awaited call. -/
def factCheckLoop (fcO : Nat → FactCheckAgent.Oracle) :
    Nat → List String → List PyVal
  | _, [] => []
  | i, c :: cs => FactCheckAgent.run c (fcO i) :: factCheckLoop fcO (i + 1) cs

/-- `factcheck_node` (orchestrator.py lines 73-86).  `FactCheckAgent.run` is
total (see above), so the node's try/except never fires and `state.error` is
never written here. -/
def factcheck_node (fcO : Nat → FactCheckAgent.Oracle) (s : WorkflowState) :
    WorkflowState :=
  if errTruthy s ∨ s.claims.isEmpty then s
  else { s with fact_checks := factCheckLoop fcO 0 s.claims }

namespace TavilySearchAgent

/-- The two shapes `TavilySearchTool._search` can return
(search_enrichment/tools.py lines 34-87): an error dict
`{"status": "error", "reason": r}` (missing key, exception, or
invalid-response shape) or the success dict built by `_parse` lines 80-87 —
whose key set is `status, query, summary, top_sources, total_results,
retrieved_at` and in particular contains **no** `overall_sentiment` key. -/
inductive RawSearch where
  | err (reason : String)
  | ok (summary : String) (sources : List PyVal) (retrieved_at : String)
       (query : String)

/-- Outcomes of the collaborator calls inside `TavilySearchAgent.run`: the
raw Tavily search (total, catches its own faults) and the LLM enrichment
chain, whose success is the parsed JSON object. -/
structure Oracle where
  raw : RawSearch
  chain : Except String (List (String × PyVal))

/-- `TavilySearchAgent.run` (search_enrichment/agent.py lines 63-125).
On a non-success search it returns the `status = "failed"` dict of lines
71-76.  On LLM success it returns the `status = "success"` dict of lines
100-110.  When the LLM chain raises, the fallback of lines 115-125 reads
`raw_result["overall_sentiment"]` (line 121) — a key `_parse` never produces
— so the fallback itself raises `KeyError` and `run` propagates a fault: the
`status = "partial"` result is dead code. -/
def run (claim : String) (o : Oracle) : Except String PyVal :=
  match o.raw with
  | .err reason =>
    .ok (.dict [("claim", .str claim), ("status", .str "failed"),
                ("error", .str reason), ("insights", .none)])
  | .ok _summary _sources _ts _q =>
    match o.chain with
    | .ok out =>
      let get := fun (k : String) (d : PyVal) => (assocLookup k out).getD d
      .ok (.dict [("claim", .str claim), ("status", .str "success"),
                  ("insights", .dict
                    [("llm_summary", get "summary" .none),
                     ("confidence", get "confidence" (.rat (1/2))),
                     ("verdict", get "verdict" .none),
                     ("key_sources", get "key_sources" (.list [])),
                     ("notes", get "notes" (.str ""))])])
    | .error _ => .error "KeyError: overall_sentiment"

end TavilySearchAgent

/-- The node-level placeholder appended when `agent.run` raises for a claim
(orchestrator.py lines 107-114). -/
def enrichPlaceholder (claim : String) (e : String) : PyVal :=
  .dict [("claim", .str claim), ("status", .str "failed"),
         ("error", .str e), ("insights", .none)]

/-- The `for claim in state["claims"]` loop of `search_enrichment_node`
(orchestrator.py lines 102-114), per-claim try/except included. -/
def enrichLoop (tavO : Nat → TavilySearchAgent.Oracle) :
    Nat → List String → List PyVal
  | _, [] => []
  | i, c :: cs =>
    (match TavilySearchAgent.run c (tavO i) with
     | .ok r => r
     | .error e => enrichPlaceholder c e) :: enrichLoop tavO (i + 1) cs

/-- `search_enrichment_node` (orchestrator.py lines 89-117).
`tavilyConfigured` is the truthiness of `config.TAVILY_API_KEY` (line 94).
Note that this node never writes `state.error`. -/
def search_enrichment_node (tavilyConfigured : Bool)
    (tavO : Nat → TavilySearchAgent.Oracle) (s : WorkflowState) :
    WorkflowState :=
  if errTruthy s ∨ s.claims.isEmpty then { s with search_insights := [] }
  else if ¬ tavilyConfigured then { s with search_insights := [] }
  else { s with search_insights := enrichLoop tavO 0 s.claims }

namespace ReportCompiler

/-- Outcome of the narrative-generation chain inside `compile_report_node`
(orchestrator.py lines 147-154); a success is the parsed JSON object.  A
non-dict parse result raises inside the try (the `.get` on line 156) and so
lands in the same except branch. -/
structure Oracle where
  chain : Except String (List (String × PyVal))

end ReportCompiler

/-- The inner verdict string position read by the fallback counters:
`fc.get("verdict", {}).get("verdict")` (orchestrator.py lines 163-164). -/
def fcInnerVerdict (fc : PyVal) : PyVal :=
  (fc.getD "verdict" (.dict [])).getD "verdict" .none

/-- `fc.get("verdict", {}).get("verdict") == "verified"` / `"debunked"`. -/
def fcInnerVerdictIs (w : String) (fc : PyVal) : Bool :=
  match fcInnerVerdict fc with
  | .str s => s = w
  | _ => false

/-- The fallback verdict table of `compile_report_node`
(orchestrator.py lines 166-177). -/
def fallbackVerdict (total_claims verified debunked : Nat) : String :=
  if total_claims = 0 then "no_claims"
  else if verified = total_claims then "verified"
  else if debunked = total_claims then "debunked"
  else if verified > debunked then "mostly_verified"
  else if debunked > verified then "mostly_debunked"
  else "mixture"

/-- The templated fallback summary (orchestrator.py lines 180-184). -/
def fallbackSummary (total_claims verified debunked : Nat) : String :=
  "Processed " ++ toString total_claims ++ " claims. " ++
  toString verified ++ " verified, " ++ toString debunked ++ " debunked. " ++
  "Web search provided additional context."

/-- Add a URL to the deduplicating accumulator (`sources_set.add`); Python
uses a set, whose iteration order is unspecified — we model insertion order,
which no claim inspects. -/
def addSource (acc : List String) (u : String) : List String :=
  if u ∈ acc then acc else acc ++ [u]

/-- `.strip()`-and-add when the looked-up URL value is truthy (the reachable
truthy values at these positions are strings per the collaborator contracts;
a truthy non-string would raise in the source). -/
def addIfUrl (acc : List String) (v : PyVal) : List String :=
  if v.truthy then
    match v.asStr with
    | some u => addSource acc u.trim
    | Option.none => acc
  else acc

/-- Pass 1 of source aggregation (orchestrator.py lines 190-194): for each
fact-check, `verdict.get("source_url") or verdict.get("corroboration_url")`. -/
def sourcesFromFactChecks (acc : List String) : List PyVal → List String
  | [] => acc
  | fc :: rest =>
    let verdict_data := fc.getD "verdict" (.dict [])
    let source_url := pyOr (verdict_data.getD "source_url" .none)
      (verdict_data.getD "corroboration_url" .none)
    sourcesFromFactChecks (addIfUrl acc source_url) rest

/-- `for src in ...: url = src.get("url"); if url: add(url.strip())`
(orchestrator.py lines 206-209 and 214-217). -/
def addKeySourceUrls (acc : List String) : List PyVal → List String
  | [] => acc
  | src :: rest => addKeySourceUrls (addIfUrl acc (src.getD "url" .none)) rest

/-- Pass 2 of source aggregation (orchestrator.py lines 197-217): successful
insights contribute their `key_sources` URLs, falling back to
`raw_search.top_sources` when `key_sources` is empty (the latter is dead in
reachable states: the success insights dict has no `raw_search` key). -/
def sourcesFromInsights (acc : List String) : List PyVal → List String
  | [] => acc
  | insight :: rest =>
    if ¬ ((insight.getD "status" .none).asStr = some "success") then
      sourcesFromInsights acc rest
    else
      let insights_data := insight.getD "insights" (.dict [])
      if ¬ insights_data.truthy then sourcesFromInsights acc rest
      else
        let key_sources := (insights_data.getD "key_sources" (.list [])).items
        let acc' := addKeySourceUrls acc key_sources
        let acc'' :=
          if key_sources.isEmpty then
            addKeySourceUrls acc'
              ((insights_data.getD "raw_search" (.dict [])).getD
                "top_sources" (.list [])).items
          else acc'
        sourcesFromInsights acc'' rest

/-- The full source aggregation of `compile_report_node`
(orchestrator.py lines 186-219). -/
def collectSources (s : WorkflowState) : List String :=
  sourcesFromInsights (sourcesFromFactChecks [] s.fact_checks)
    s.search_insights

/-- `compile_report_node` (orchestrator.py lines 120-222).  The node has no
error guard: it always runs, and its body writes exactly `overall_verdict`,
`summary` and `sources` into its state dict.  `compile_report_node o s` is
that local state object after the body runs.  Unlike every other node the
function has no `return` statement (its last statement is the `logger.info`
on line 221, so it returns None), and the `WorkflowState` TypedDict declares
no `overall_verdict`/`summary`/`sources` channels — so the graph applies no
update from this node and these writes never reach the run's final state
(see `graphInvoke`). -/
def compile_report_node (o : ReportCompiler.Oracle) (s : WorkflowState) :
    WorkflowState :=
  let s' :=
    match o.chain with
    | .ok compiled =>
      { s with
        overall_verdict :=
          some ((assocLookup "overall_verdict" compiled).getD
            (.str "unverified"))
        summary :=
          some ((assocLookup "summary" compiled).getD
            (.str "No summary generated")) }
    | .error _ =>
      let total_claims := s.claims.length
      let verified := s.fact_checks.countP (fcInnerVerdictIs "verified" ·)
      let debunked := s.fact_checks.countP (fcInnerVerdictIs "debunked" ·)
      { s with
        overall_verdict :=
          some (.str (fallbackVerdict total_claims verified debunked))
        summary :=
          some (.str (fallbackSummary total_claims verified debunked)) }
  { s' with sources := some (collectSources s') }

/-- All collaborator outcomes of one run, plus whether the Tavily credential
is configured.  Per-claim oracles are indexed by claim position. -/
structure RunOracle where
  cred : SourceCredibilityAgent.Oracle
  extract : ClaimExtractionAgent.Oracle
  tavilyConfigured : Bool
  tav : Nat → TavilySearchAgent.Oracle
  factcheck : Nat → FactCheckAgent.Oracle
  compile : ReportCompiler.Oracle

/-- The compiled graph `graph.ainvoke` (orchestrator.py lines 231-256):
entry point `credibility_node`, then the conditional edge dispatched on
`decide_next_step`, then the linear tail
extraction → search_enrichment → factcheck → compile (lines 249-252).
`compile_report_node` still executes, but it returns None (no
`return state`) and the state schema has no `overall_verdict`/`summary`/
`sources` channels, so the engine applies no update from it: the channel
values `ainvoke` returns are those as of `factcheck_node`. -/
def graphInvoke (o : RunOracle) (s : WorkflowState) : WorkflowState :=
  if decide_next_step (credibility_node o.cred s) = "__end__" then
    credibility_node o.cred s
  else
    factcheck_node o.factcheck
      (search_enrichment_node o.tavilyConfigured o.tav
        (extraction_node o.extract (credibility_node o.cred s)))

/-- `core.models.FinalReport` restricted to its declared fields;
`overall_verdict` is kept as a raw value (the primary path copies whatever
the narrative collaborator returned). -/
structure FinalReport where
  url : String
  credibility : PyVal
  claims : List String
  fact_checks : List PyVal
  search_insights : List PyVal
  overall_verdict : PyVal
  summary : String
  sources : List String

/-- The `FinalReport(...)` construction of `run_orchestrator`
(orchestrator.py lines 272-281), with its `.get` defaults. -/
def reportOfState (s : WorkflowState) : FinalReport :=
  { url := s.url
    credibility := s.credibility
    claims := s.claims
    fact_checks := s.fact_checks
    search_insights := s.search_insights
    overall_verdict := s.overall_verdict.getD (.str "unverified")
    summary := (s.summary.getD (.str "No summary available")).pyStr
    sources := s.sources.getD [] }

/-- The `thread_id` under which `run_orchestrator` invokes the graph
(orchestrator.py line 269): the constant `"main"`, independent of the run. -/
def orchestratorThreadId (_url _selection : String) : String := "main"

/-- `run_orchestrator` (orchestrator.py lines 259-281): fresh initial state,
graph invocation, report construction. -/
def run_orchestrator (url selection : String) (o : RunOracle) : FinalReport :=
  reportOfState (graphInvoke o (initialState url selection))

/-- The module-level `MemorySaver` checkpointer (orchestrator.py lines
255-256) keeps, across runs, the latest checkpoint per thread id.
`runWithCheckpointer` is `run_orchestrator` seen together with that store:
the run writes its final state under `orchestratorThreadId` and the store
survives the run. -/
def runWithCheckpointer (store : List (String × WorkflowState))
    (url selection : String) (o : RunOracle) :
    FinalReport × List (String × WorkflowState) :=
  let final := graphInvoke o (initialState url selection)
  (reportOfState final,
   (orchestratorThreadId url selection, final) ::
     store.filter (fun kv => kv.1 ≠ orchestratorThreadId url selection))

/-- The class names defined at top level of `app/core/models.py`. -/
def coreModelsNames : List String :=
  ["AnalysisRequest", "IdentityData", "VerdictData", "AnalysisResponse",
   "Provenance", "Claim", "CredibilityVerdict", "FactCheckVerdict",
   "VerifyResponse", "FinalReport"]

/-- The names `app/api/v1/endpoints.py` line 5 imports from
`app.core.models`. -/
def endpointsCoreModelsImports : List String :=
  ["AnalysisRequest", "AnalysisResponse", "SourceIdentity", "VerdictSummary",
   "ClaimVerdict"]

/-- The required (`Field(...)`) fields of `core.models.AnalysisResponse`
(app/core/models.py lines 27-31). -/
def analysisResponseRequiredFields : List String :=
  ["status", "verdict", "identity", "details"]

/-- The keyword arguments `analyze_content` passes when constructing
`AnalysisResponse` (app/api/v1/endpoints.py lines 108-125). -/
def analyzeContentResponseKwargs : List String :=
  ["source_identity", "claims", "verdict", "search_insights"]

/-- The invalid-invocation guard of `analyze_content`
(endpoints.py lines 21-22): reject with HTTP 400 when neither `url` nor
`selection` is truthy. -/
def analyzeContentRejects (url selection : Option String) : Bool :=
  url.getD "" = "" ∧ selection.getD "" = ""

/-- The overall-verdict fallback table exactly as worded in the
specification (§4.4), written from the spec's words for comparison with the
source's `fallbackVerdict`. -/
def specOverallVerdictTable (total_claims verified_count debunked_count : Nat) :
    String :=
  if total_claims = 0 then "no_claims"
  else if verified_count = total_claims then "verified"
  else if debunked_count = total_claims then "debunked"
  else if verified_count > debunked_count then "mostly_verified"
  else if debunked_count > verified_count then "mostly_debunked"
  else "mixture"

/-- Agreement of two states on every field the compiler may not touch:
everything except `overall_verdict`, `summary`, `sources`. -/
def frameAgrees (a b : WorkflowState) : Prop :=
  a.url = b.url ∧ a.selection = b.selection ∧
  a.credibility = b.credibility ∧ a.claims = b.claims ∧
  a.fact_checks = b.fact_checks ∧ a.search_insights = b.search_insights ∧
  a.error = b.error

/-- State of a run after `credibility_node`. -/
def stateAfterCredibility (o : RunOracle) (url selection : String) :
    WorkflowState :=
  credibility_node o.cred (initialState url selection)

/-- State of a run after `extraction_node`. -/
def stateAfterExtraction (o : RunOracle) (url selection : String) :
    WorkflowState :=
  extraction_node o.extract (stateAfterCredibility o url selection)

/-- State of a run after `search_enrichment_node`. -/
def stateAfterEnrichment (o : RunOracle) (url selection : String) :
    WorkflowState :=
  search_enrichment_node o.tavilyConfigured o.tav
    (stateAfterExtraction o url selection)

/-- State of a run after `factcheck_node` — the state "at FactCheck". -/
def stateAfterFactCheck (o : RunOracle) (url selection : String) :
    WorkflowState :=
  factcheck_node o.factcheck (stateAfterEnrichment o url selection)

/-- The sequence of state objects a run passes through: the initial state
and the state as seen after each executed node body, in graph order; the
last entry is `compile_report_node`'s local state after its body runs (the
engine then discards its writes — see `graphInvoke` — so the graph-level
final state is the trace's fifth entry).  On the (conditional-edge) END
branch the trace stops after `credibility_node`. -/
def runTrace (url selection : String) (o : RunOracle) : List WorkflowState :=
  if decide_next_step (stateAfterCredibility o url selection) = "__end__" then
    [initialState url selection, stateAfterCredibility o url selection]
  else
    [initialState url selection,
     stateAfterCredibility o url selection,
     stateAfterExtraction o url selection,
     stateAfterEnrichment o url selection,
     stateAfterFactCheck o url selection,
     compile_report_node o.compile (stateAfterFactCheck o url selection)]

/-- The `"claim"` entry of a per-claim result dict. -/
def entryClaim (v : PyVal) : Option String := (v.getD "claim" .none).asStr

/-- The `"status"` entry of a search-insight dict. -/
def entryStatus (v : PyVal) : Option String := (v.getD "status" .none).asStr

/-- The `"explanation"` entry of a fact-check's inner verdict dict. -/
def fcExplanation (fc : PyVal) : Option String :=
  ((fc.getD "verdict" (.dict [])).getD "explanation" .none).asStr

/-- A concrete credibility oracle whose LLM chain reports the given trust
level. -/
def demoCredOracle (tl : String) : SourceCredibilityAgent.Oracle :=
  { tool := .ok (.dict [("domain_age_days", .rat 4000)])
    chain := .ok [("trust_level", .str tl), ("score", .rat 80),
                  ("red_flags", .list []), ("summary", .str "demo"),
                  ("source_used", .list [])] }

/-- A concrete extraction oracle: the url branch yields one factual and one
opinion claim; the selection branch yields a distinct factual claim. -/
def demoExtractOracle : ClaimExtractionAgent.Oracle :=
  { selectionBranch := .ok [{ text := "claim from the user selection",
                              claim_type := "factual" }]
    urlBranch := .ok [{ text := "Paris is the capital of France.",
                        claim_type := "factual" },
                      { text := "Paris is lovely.", claim_type := "opinion" }] }

/-- A concrete fact-check oracle whose LLM chain returns the given verdict. -/
def demoFCOk (v : String) : FactCheckAgent.Oracle :=
  { tool := .dict [("status", .str "unverified"),
                   ("reason", .str "No fact-checks found")]
    chain := .ok [("claim", .str "Paris is the capital of France."),
                  ("verdict", .str v),
                  ("textual_rating", .str "True"),
                  ("corroboration_url", .str "https://factcheck.example/a")] }

/-- A concrete fact-check oracle whose LLM chain raises. -/
def demoFCFail : FactCheckAgent.Oracle :=
  { tool := .dict [("status", .str "unverified")]
    chain := .error "LLM timeout" }

/-- A concrete search-enrichment oracle with a successful search and LLM. -/
def demoTavOk : TavilySearchAgent.Oracle :=
  { raw := .ok "summary text"
      [.dict [("title", .str "Src"), ("url", .str "https://news.example/x"),
              ("snippet", .str "..."), ("domain", .str "news.example")]]
      "2025-01-01" "query"
    chain := .ok [("claim", .str "c"), ("summary", .str "enriched"),
                  ("confidence", .rat (9/10)), ("verdict", .str "verified"),
                  ("key_sources", .list [.dict
                    [("title", .str "Src"),
                     ("url", .str "https://news.example/x")]]),
                  ("notes", .str "")] }

/-- A concrete search-enrichment oracle whose raw search fails. -/
def demoTavErr : TavilySearchAgent.Oracle :=
  { raw := .err "HTTPError 502", chain := .error "unused" }

/-- A fully successful concrete run oracle (high trust, one factual claim,
Tavily configured, narrative compiler succeeds). -/
def demoRunOracle : RunOracle :=
  { cred := demoCredOracle "high"
    extract := demoExtractOracle
    tavilyConfigured := true
    tav := fun _ => demoTavOk
    factcheck := fun _ => demoFCOk "verified"
    compile := { chain := .ok [("overall_verdict", .str "verified"),
                               ("summary", .str "All claims verified.")] } }

/-- Concrete run oracle for a low-credibility source, with the narrative
compiler failing so the deterministic fallback is exercised. -/
def lowTrustRunOracle : RunOracle :=
  { demoRunOracle with
    cred := demoCredOracle "low"
    compile := { chain := .error "LLM compile failed" } }

/-- Concrete run oracle for a run with the Tavily credential missing. -/
def noTavilyRunOracle : RunOracle :=
  { demoRunOracle with tavilyConfigured := false }

/-- The flat credibility report `SourceCredibilityAgent.run` produces for a
low-trust source: top-level `trust_level`, no `"verdict"` key. -/
def lowTrustReport : PyVal :=
  .dict [("url", .str "https://example.com/a"), ("trust_level", .str "low"),
         ("score", .rat 80), ("red_flags", .list []),
         ("summary", .str "demo"),
         ("source_used", .list [.str "https://example.com/a"])]

/-- An extraction oracle differing from `demoExtractOracle` only in its
user-selection branch. -/
def demoExtractOracleAlt : ClaimExtractionAgent.Oracle :=
  { demoExtractOracle with
    selectionBranch := .error "selection branch would have failed" }

/-- A concrete state at the fact-check step carrying three extracted
claims. -/
def threeClaimsState : WorkflowState :=
  { initialState "https://example.com/a" "" with claims := ["c0", "c1", "c2"] }

/-- A per-claim fact-check oracle failing for claim index 1 only. -/
def failAtOneFCOracle : Nat → FactCheckAgent.Oracle :=
  fun i => if i = 1 then demoFCFail else demoFCOk "verified"

/-- A per-claim search-enrichment oracle failing for claim index 1 only. -/
def failAtOneTavOracle : Nat → TavilySearchAgent.Oracle :=
  fun i => if i = 1 then demoTavErr else demoTavOk

/-! ## Shared lemmas -/

theorem credibility_node_frame (o : SourceCredibilityAgent.Oracle)
    (s : WorkflowState) :
    (credibility_node o s).url = s.url ∧
    (credibility_node o s).selection = s.selection ∧
    (credibility_node o s).claims = s.claims ∧
    (credibility_node o s).fact_checks = s.fact_checks ∧
    (credibility_node o s).search_insights = s.search_insights := by
  unfold credibility_node
  split
  · exact ⟨rfl, rfl, rfl, rfl, rfl⟩
  · split
    · exact ⟨rfl, rfl, rfl, rfl, rfl⟩
    · split <;> exact ⟨rfl, rfl, rfl, rfl, rfl⟩

theorem extraction_node_frame (o : ClaimExtractionAgent.Oracle)
    (s : WorkflowState) :
    (extraction_node o s).url = s.url ∧
    (extraction_node o s).selection = s.selection ∧
    (extraction_node o s).credibility = s.credibility ∧
    (extraction_node o s).fact_checks = s.fact_checks ∧
    (extraction_node o s).search_insights = s.search_insights := by
  unfold extraction_node
  split
  · exact ⟨rfl, rfl, rfl, rfl, rfl⟩
  · split <;> exact ⟨rfl, rfl, rfl, rfl, rfl⟩

theorem extraction_node_skip (o : ClaimExtractionAgent.Oracle)
    (s : WorkflowState) (h : errTruthy s = true) :
    extraction_node o s = s := by
  unfold extraction_node
  simp [h]

theorem factcheck_node_frame (fcO : Nat → FactCheckAgent.Oracle)
    (s : WorkflowState) :
    (factcheck_node fcO s).url = s.url ∧
    (factcheck_node fcO s).selection = s.selection ∧
    (factcheck_node fcO s).credibility = s.credibility ∧
    (factcheck_node fcO s).claims = s.claims ∧
    (factcheck_node fcO s).search_insights = s.search_insights ∧
    (factcheck_node fcO s).error = s.error := by
  unfold factcheck_node
  split <;> exact ⟨rfl, rfl, rfl, rfl, rfl, rfl⟩

theorem factcheck_node_skip (fcO : Nat → FactCheckAgent.Oracle)
    (s : WorkflowState) (h : errTruthy s = true) :
    factcheck_node fcO s = s := by
  unfold factcheck_node
  simp [h]

theorem search_enrichment_node_frame (cfg : Bool)
    (tavO : Nat → TavilySearchAgent.Oracle) (s : WorkflowState) :
    (search_enrichment_node cfg tavO s).url = s.url ∧
    (search_enrichment_node cfg tavO s).selection = s.selection ∧
    (search_enrichment_node cfg tavO s).credibility = s.credibility ∧
    (search_enrichment_node cfg tavO s).claims = s.claims ∧
    (search_enrichment_node cfg tavO s).fact_checks = s.fact_checks ∧
    (search_enrichment_node cfg tavO s).error = s.error := by
  unfold search_enrichment_node
  split
  · exact ⟨rfl, rfl, rfl, rfl, rfl, rfl⟩
  · split <;> exact ⟨rfl, rfl, rfl, rfl, rfl, rfl⟩

theorem search_enrichment_node_skip (cfg : Bool)
    (tavO : Nat → TavilySearchAgent.Oracle) (s : WorkflowState)
    (h : errTruthy s = true) (hins : s.search_insights = []) :
    search_enrichment_node cfg tavO s = s := by
  unfold search_enrichment_node
  have : (errTruthy s ∨ s.claims.isEmpty) = True := by simp [h]
  rw [if_pos (by simp [h])]
  cases s
  simp_all

theorem compile_report_node_frame (o : ReportCompiler.Oracle)
    (s : WorkflowState) : frameAgrees s (compile_report_node o s) := by
  unfold compile_report_node frameAgrees
  split <;> exact ⟨rfl, rfl, rfl, rfl, rfl, rfl, rfl⟩

theorem factCheckLoop_length (fcO : Nat → FactCheckAgent.Oracle) (i : Nat)
    (cs : List String) : (factCheckLoop fcO i cs).length = cs.length := by
  induction cs generalizing i with
  | nil => rfl
  | cons c cs ih => simp [factCheckLoop, ih]

theorem factCheckLoop_getElem (fcO : Nat → FactCheckAgent.Oracle) (i : Nat)
    (cs : List String) (j : Nat) :
    (factCheckLoop fcO i cs)[j]? =
      (cs[j]?).map (fun c => FactCheckAgent.run c (fcO (i + j))) := by
  induction cs generalizing i j with
  | nil => simp [factCheckLoop]
  | cons c cs ih =>
    cases j with
    | zero => simp [factCheckLoop]
    | succ j =>
      simp only [factCheckLoop, List.getElem?_cons_succ]
      rw [ih (i + 1) j, show i + 1 + j = i + (j + 1) from by omega]

theorem enrichLoop_length (tavO : Nat → TavilySearchAgent.Oracle) (i : Nat)
    (cs : List String) : (enrichLoop tavO i cs).length = cs.length := by
  induction cs generalizing i with
  | nil => rfl
  | cons c cs ih => simp [enrichLoop, ih]

theorem enrichLoop_getElem (tavO : Nat → TavilySearchAgent.Oracle) (i : Nat)
    (cs : List String) (j : Nat) :
    (enrichLoop tavO i cs)[j]? =
      (cs[j]?).map (fun c =>
        match TavilySearchAgent.run c (tavO (i + j)) with
        | .ok r => r
        | .error e => enrichPlaceholder c e) := by
  induction cs generalizing i j with
  | nil => simp [enrichLoop]
  | cons c cs ih =>
    cases j with
    | zero => simp [enrichLoop]
    | succ j =>
      simp only [enrichLoop, List.getElem?_cons_succ]
      rw [ih (i + 1) j, show i + 1 + j = i + (j + 1) from by omega]

theorem fcRun_entryClaim (c : String) (o : FactCheckAgent.Oracle) :
    entryClaim (FactCheckAgent.run c o) = some c := by
  unfold FactCheckAgent.run
  split <;> rfl

theorem enrichResult_entryClaim (c : String) (o : TavilySearchAgent.Oracle) :
    entryClaim (match TavilySearchAgent.run c o with
      | .ok r => r
      | .error e => enrichPlaceholder c e) = some c := by
  obtain ⟨raw, chain⟩ := o
  cases raw <;> cases chain <;> rfl

theorem cred_report_has_no_verdict_key (url : String)
    (o : SourceCredibilityAgent.Oracle) (r : PyVal)
    (h : SourceCredibilityAgent.run url o = .ok r) :
    r.getD "verdict" (.dict []) = .dict [] := by
  obtain ⟨tool, chain⟩ := o
  cases tool with
  | error e => simp [SourceCredibilityAgent.run] at h
  | ok rep =>
    cases chain with
    | error e =>
      simp only [SourceCredibilityAgent.run, Except.ok.injEq] at h
      subst h
      rfl
    | ok verdict =>
      simp only [SourceCredibilityAgent.run, Except.ok.injEq] at h
      subst h
      simp [PyVal.getD, assocLookup]

theorem decide_next_step_of_no_verdict (s : WorkflowState)
    (h : s.credibility.getD "verdict" (.dict []) = .dict []) :
    decide_next_step s = "extraction_node" := by
  simp only [decide_next_step, h]
  rfl

theorem credibility_node_no_verdict (o : SourceCredibilityAgent.Oracle)
    (s : WorkflowState) (hs : s.credibility.getD "verdict" (.dict []) = .dict []) :
    (credibility_node o s).credibility.getD "verdict" (.dict []) = .dict [] := by
  unfold credibility_node
  split
  · exact hs
  · split
    · exact hs
    · rename_i r hr
      split <;> exact cred_report_has_no_verdict_key _ _ _ hr

/-- In every run started from `run_orchestrator`'s initial state the
conditional edge routes to `extraction_node`: the credibility reports stored
in the state never contain the nested `"verdict"` key `decide_next_step`
inspects, so the END branch is dead. -/
theorem graphInvoke_never_ends_early (o : RunOracle) (url sel : String) :
    decide_next_step (credibility_node o.cred (initialState url sel)) =
      "extraction_node" ∧
    graphInvoke o (initialState url sel) =
      factcheck_node o.factcheck
        (search_enrichment_node o.tavilyConfigured o.tav
          (extraction_node o.extract
            (credibility_node o.cred (initialState url sel)))) := by
  have h : decide_next_step (credibility_node o.cred (initialState url sel)) =
      "extraction_node" :=
    decide_next_step_of_no_verdict _
      (credibility_node_no_verdict _ _ (by rfl))
  refine ⟨h, ?_⟩
  unfold graphInvoke
  rw [h]
  simp

/-! ## C6 -/

/-- C6: the fallback overall-verdict computation is a pure function of
`(total_claims, verified_count, debunked_count)` matching the specified
table exactly, and `compile_report_node` applies it (to exactly those
counts, together with the templated summary) whenever the narrative chain
fails. -/
theorem C6_fallback_verdict_matches_table :
    (∀ total verified debunked : Nat,
      fallbackVerdict total verified debunked =
        specOverallVerdictTable total verified debunked) ∧
    (∀ (o : ReportCompiler.Oracle) (s : WorkflowState) (e : String),
      o.chain = .error e →
      (compile_report_node o s).overall_verdict =
        some (.str (fallbackVerdict s.claims.length
          (s.fact_checks.countP (fcInnerVerdictIs "verified" ·))
          (s.fact_checks.countP (fcInnerVerdictIs "debunked" ·)))) ∧
      (compile_report_node o s).summary =
        some (.str (fallbackSummary s.claims.length
          (s.fact_checks.countP (fcInnerVerdictIs "verified" ·))
          (s.fact_checks.countP (fcInnerVerdictIs "debunked" ·))))) := by
  constructor
  · intro total verified debunked
    rfl
  · intro o s e h
    obtain ⟨chain⟩ := o
    cases h
    exact ⟨rfl, rfl⟩

/-- Witness for C6 at concrete inputs: `total=3, verified=3, debunked=0`
gives `"verified"`, `total=3, verified=1, debunked=1` gives `"mixture"`,
`total=0` gives `"no_claims"`, and on a concrete state with an empty claim
list and a failing narrative chain the node writes `"no_claims"`. -/
theorem C6_fallback_verdict_matches_table_witness :
    fallbackVerdict 3 3 0 = specOverallVerdictTable 3 3 0 ∧
    fallbackVerdict 3 3 0 = "verified" ∧
    fallbackVerdict 3 1 1 = "mixture" ∧
    fallbackVerdict 0 0 0 = "no_claims" ∧
    (compile_report_node { chain := .error "timeout" }
      (initialState "https://example.com/a" "")).overall_verdict =
        some (.str "no_claims") :=
  ⟨C6_fallback_verdict_matches_table.1 3 3 0, by decide, by decide, by decide,
   (C6_fallback_verdict_matches_table.2 { chain := .error "timeout" }
      (initialState "https://example.com/a" "") "timeout" rfl).1⟩

/-! ## C2 -/

/-- C2 (code bug): `SourceCredibilityAgent.run` stores a *flat* report whose
top-level `trust_level` is `"low"`, yet `decide_next_step` — which looks up
`credibility["verdict"]["trust_level"]`, a key the report does not have —
still returns `"extraction_node"` (CONTINUE) on the resulting state, although
the claim (and the code's own `# Still skip if very low` intent and the flat
read in `credibility_node`) requires TERMINATE for trust level `"low"`. -/
theorem C2_gate_never_terminates_on_low_trust :
    SourceCredibilityAgent.run "https://example.com/a" (demoCredOracle "low") =
      .ok lowTrustReport ∧
    lowTrustReport.getD "trust_level" (.str "unknown") = .str "low" ∧
    isLowTrust (.str "low") = true ∧
    decide_next_step
      { initialState "https://example.com/a" "" with
        credibility := lowTrustReport } = "extraction_node" :=
  ⟨rfl, rfl, rfl, rfl⟩

/-! ## C9 -/

/-- C9 (code bug): on a run supplying both a url and a non-empty selection,
`extraction_node` passes the bundled verdict *dict* as the collaborator's
`url` parameter and leaves its `selection` parameter at the Python default
`None` (falsy), so the collaborator's user-selection branch can never run:
two extraction collaborators differing only in their selection branch yield
identical states, and the stored claims are the filtered texts of the
url-scraping branch. -/
theorem C9_selection_parameter_is_always_none :
    (credibility_node (demoCredOracle "high")
      (initialState "https://example.com/a"
        "The Earth orbits the Sun.")).selection = "The Earth orbits the Sun." ∧
    PyVal.truthy PyVal.none = false ∧
    extraction_node demoExtractOracle
      (credibility_node (demoCredOracle "high")
        (initialState "https://example.com/a" "The Earth orbits the Sun.")) =
    extraction_node demoExtractOracleAlt
      (credibility_node (demoCredOracle "high")
        (initialState "https://example.com/a" "The Earth orbits the Sun.")) ∧
    (extraction_node demoExtractOracle
      (credibility_node (demoCredOracle "high")
        (initialState "https://example.com/a"
          "The Earth orbits the Sun."))).claims =
      ["Paris is the capital of France."] :=
  ⟨rfl, rfl, rfl, rfl⟩

/-! ## C10 -/

/-- C10 counterexample: the resumability checkpoint key is *not*
run-specific — two invocations with entirely different inputs use the same
thread id `"main"`, and after a run completes the module-level saver still
holds that run's checkpoint under `"main"`. -/
theorem C10_checkpoint_key_not_run_specific :
    orchestratorThreadId "https://a.example/one" "alpha" =
      orchestratorThreadId "https://b.example/two" "beta" ∧
    ((runWithCheckpointer [] "https://a.example/one" "alpha"
        demoRunOracle).2.map Prod.fst) = ["main"] :=
  ⟨rfl, rfl⟩

/-- C10 (amended): each invocation operates on a `WorkflowState` built fresh
from its own inputs and its report depends only on its own url/selection and
collaborator outcomes (in particular not on the checkpoint store), but the
checkpoint is written under the fixed thread id `"main"` shared by every run
and is retained by the saver after the run completes. -/
theorem C10_runs_isolated_but_fixed_thread_id
    (store store' : List (String × WorkflowState)) (url sel : String)
    (o : RunOracle) :
    (runWithCheckpointer store url sel o).1 =
      (runWithCheckpointer store' url sel o).1 ∧
    (runWithCheckpointer store url sel o).1 = run_orchestrator url sel o ∧
    orchestratorThreadId url sel = "main" ∧
    ((runWithCheckpointer store url sel o).2.map Prod.fst).head? =
      some "main" :=
  ⟨rfl, rfl, rfl, rfl⟩

/-! ## C7 -/

/-- C7 (code bug): `analyze_content` cannot serve any request, valid or not:
`endpoints.py` imports `SourceIdentity`, `VerdictSummary` and `ClaimVerdict`
from `app.core.models`, which defines no such names, and the
`AnalysisResponse` it constructs supplies none of that model's required
fields `status`/`identity`/`details` — so every invocation faults, not only
invalid ones. -/
theorem C7_endpoint_response_model_mismatch :
    ("SourceIdentity" ∈ endpointsCoreModelsImports ∧
      "SourceIdentity" ∉ coreModelsNames) ∧
    ("VerdictSummary" ∈ endpointsCoreModelsImports ∧
      "VerdictSummary" ∉ coreModelsNames) ∧
    ("ClaimVerdict" ∈ endpointsCoreModelsImports ∧
      "ClaimVerdict" ∉ coreModelsNames) ∧
    ("status" ∈ analysisResponseRequiredFields ∧
      "status" ∉ analyzeContentResponseKwargs) ∧
    ("identity" ∈ analysisResponseRequiredFields ∧
      "identity" ∉ analyzeContentResponseKwargs) ∧
    ("details" ∈ analysisResponseRequiredFields ∧
      "details" ∉ analyzeContentResponseKwargs) := by
  decide

theorem credibility_node_low (o : SourceCredibilityAgent.Oracle)
    (s : WorkflowState) (r : PyVal) (hurl : ¬ s.url = "")
    (hrun : SourceCredibilityAgent.run s.url o = .ok r)
    (hlow : isLowTrust (r.getD "trust_level" (.str "unknown")) = true) :
    credibility_node o s =
      { s with credibility := r,
               error := some "Source credibility too low to proceed" } := by
  rw [credibility_node, if_neg hurl]
  simp only [hrun, hlow, if_true]

theorem compile_report_node_populates (o : ReportCompiler.Oracle)
    (s : WorkflowState) :
    (compile_report_node o s).overall_verdict.isSome = true ∧
    (compile_report_node o s).summary.isSome = true ∧
    (compile_report_node o s).sources.isSome = true := by
  obtain ⟨chain⟩ := o
  cases chain <;> exact ⟨rfl, rfl, rfl⟩

theorem extraction_node_claims_of_err (o : ClaimExtractionAgent.Oracle)
    (s : WorkflowState) (hcl : s.claims = [])
    (h : errTruthy (extraction_node o s) = true) :
    (extraction_node o s).claims = [] := by
  by_cases he : errTruthy s = true
  · rw [extraction_node_skip o s he]
    exact hcl
  · rw [extraction_node, if_neg he] at h ⊢
    split at h
    · exact absurd h he
    · exact hcl

/-! ## C1 -/

/-- C1 counterexample: a concrete run whose credibility assessment yields
trust_level `"low"` — the outcome IS recorded in `state.error` (refuting
"this outcome is not recorded as an error"), the conditional gate still
routes to `extraction_node` rather than END, and the caller-facing report
carries no distinct status flag: it surfaces with `overall_verdict`
`"unverified"`, the default summary and empty sources — exactly what any
other run's report carries, since the compiler's writes never reach the
final state — so the outcome is NOT distinguishable from a report whose
verdict is `"unverified"`. -/
theorem C1_low_trust_run_not_terminated :
    (graphInvoke lowTrustRunOracle
      (initialState "https://example.com/a" "")).error =
        some "Source credibility too low to proceed" ∧
    decide_next_step
      (stateAfterCredibility lowTrustRunOracle "https://example.com/a" "") =
      "extraction_node" ∧
    FinalReport.overall_verdict
      (run_orchestrator "https://example.com/a" "" lowTrustRunOracle) =
      .str "unverified" ∧
    FinalReport.summary
      (run_orchestrator "https://example.com/a" "" lowTrustRunOracle) =
      "No summary available" ∧
    FinalReport.sources
      (run_orchestrator "https://example.com/a" "" lowTrustRunOracle) = [] :=
  ⟨rfl, rfl, rfl, rfl, rfl⟩

/-- C1 (amended): for every run whose credibility assessment returns a
report with a low/very_low trust level, `credibility_node` records the
outcome in `state.error`; the conditional gate still routes to
`extraction_node` (the END transition never fires, since the stored report
has no nested `"verdict"` key); the downstream steps no-op on the error, so
the graph-level final state is exactly the post-credibility state — in
particular `claims`/`fact_checks` stay empty and `overall_verdict`,
`summary`, `sources` stay absent (as they do in *every* run, the compiler's
writes being discarded); `run_orchestrator`'s defaults then surface the run
with `overall_verdict "unverified"`, the default summary and empty sources,
and no distinct status flag. -/
theorem C1_low_trust_error_not_distinct_flag (o : RunOracle)
    (url sel : String) (r : PyVal) (hurl : ¬ url = "")
    (hrun : SourceCredibilityAgent.run url o.cred = .ok r)
    (hlow : isLowTrust (r.getD "trust_level" (.str "unknown")) = true) :
    (stateAfterCredibility o url sel).error =
      some "Source credibility too low to proceed" ∧
    decide_next_step (stateAfterCredibility o url sel) = "extraction_node" ∧
    graphInvoke o (initialState url sel) = stateAfterCredibility o url sel ∧
    (graphInvoke o (initialState url sel)).claims = [] ∧
    (graphInvoke o (initialState url sel)).fact_checks = [] ∧
    (graphInvoke o (initialState url sel)).error =
      some "Source credibility too low to proceed" ∧
    (graphInvoke o (initialState url sel)).overall_verdict = Option.none ∧
    (graphInvoke o (initialState url sel)).summary = Option.none ∧
    (graphInvoke o (initialState url sel)).sources = Option.none ∧
    FinalReport.overall_verdict (run_orchestrator url sel o) =
      .str "unverified" ∧
    FinalReport.summary (run_orchestrator url sel o) =
      "No summary available" ∧
    FinalReport.sources (run_orchestrator url sel o) = [] := by
  have hs1 : stateAfterCredibility o url sel =
      { initialState url sel with
          credibility := r,
          error := some "Source credibility too low to proceed" } := by
    rw [stateAfterCredibility]
    exact credibility_node_low o.cred (initialState url sel) r hurl hrun hlow
  have herr1 : errTruthy (stateAfterCredibility o url sel) = true := by
    rw [hs1]; rfl
  have h2 : stateAfterExtraction o url sel = stateAfterCredibility o url sel := by
    rw [stateAfterExtraction]
    exact extraction_node_skip _ _ herr1
  have h3 : stateAfterEnrichment o url sel = stateAfterExtraction o url sel := by
    rw [stateAfterEnrichment]
    apply search_enrichment_node_skip
    · rw [h2]; exact herr1
    · rw [h2, hs1]; rfl
  have h4 : stateAfterFactCheck o url sel = stateAfterEnrichment o url sel := by
    rw [stateAfterFactCheck]
    apply factcheck_node_skip
    rw [h3, h2]; exact herr1
  have hfin : graphInvoke o (initialState url sel) =
      stateAfterCredibility o url sel := by
    rw [(graphInvoke_never_ends_early o url sel).2]
    show stateAfterFactCheck o url sel = stateAfterCredibility o url sel
    rw [h4, h3, h2]
  have hrep : run_orchestrator url sel o =
      reportOfState (stateAfterCredibility o url sel) := by
    rw [run_orchestrator, hfin]
  refine ⟨by rw [hs1], (graphInvoke_never_ends_early o url sel).1, hfin,
    ?_, ?_, ?_, ?_, ?_, ?_, ?_, ?_, ?_⟩
  · rw [hfin, hs1]; rfl
  · rw [hfin, hs1]; rfl
  · rw [hfin, hs1]
  · rw [hfin, hs1]; rfl
  · rw [hfin, hs1]; rfl
  · rw [hfin, hs1]; rfl
  · rw [hrep, hs1]; rfl
  · rw [hrep, hs1]; rfl
  · rw [hrep, hs1]; rfl

/-- Witness for C1's amended statement at the concrete low-trust run. -/
theorem C1_low_trust_error_not_distinct_flag_witness :
    (¬ "https://example.com/a" = "") ∧
    SourceCredibilityAgent.run "https://example.com/a" lowTrustRunOracle.cred =
      .ok lowTrustReport ∧
    isLowTrust (lowTrustReport.getD "trust_level" (.str "unknown")) = true ∧
    (stateAfterCredibility lowTrustRunOracle "https://example.com/a" "").error =
      some "Source credibility too low to proceed" ∧
    (graphInvoke lowTrustRunOracle
      (initialState "https://example.com/a" "")).claims = [] ∧
    (graphInvoke lowTrustRunOracle
      (initialState "https://example.com/a" "")).overall_verdict =
      Option.none ∧
    FinalReport.overall_verdict
      (run_orchestrator "https://example.com/a" "" lowTrustRunOracle) =
      .str "unverified" := by
  have h := C1_low_trust_error_not_distinct_flag lowTrustRunOracle
    "https://example.com/a" "" lowTrustReport (by decide) rfl rfl
  exact ⟨by decide, rfl, rfl, h.1, h.2.2.2.1, h.2.2.2.2.2.2.1,
    h.2.2.2.2.2.2.2.2.2.1⟩

/-! ## C3 -/

/-- C3: in the fact-check step a failure of the fact-check collaborator on
claim i (its LLM chain raising — the only fault the collaborator can
experience, since its tool absorbs its own errors) does not abort claims
i+1..n and never touches `state.error`: every index receives the result of
its own outcome, a failed index receives the placeholder whose inner verdict
is `"unverified"` with the explanatory note `"Fact-check processing failed"`,
and sibling indices receive their fully populated result dicts. -/
theorem C3_factcheck_failure_isolated (s : WorkflowState)
    (fcO : Nat → FactCheckAgent.Oracle)
    (herr : errTruthy s = false) (hne : ¬ s.claims.isEmpty) :
    (factcheck_node fcO s).error = s.error ∧
    (factcheck_node fcO s).fact_checks.length = s.claims.length ∧
    (∀ i e, (fcO i).chain = .error e →
      (factcheck_node fcO s).fact_checks[i]? =
        (s.claims[i]?).map (fun c => FactCheckAgent.placeholder c e)) ∧
    (∀ i verdict, (fcO i).chain = .ok verdict →
      (factcheck_node fcO s).fact_checks[i]? =
        (s.claims[i]?).map (fun c => PyVal.dict
          [("agent", .str "fact_checker"), ("claim", .str c),
           ("verdict", .dict verdict),
           ("raw_tool_result", (fcO i).tool)])) ∧
    (∀ c e,
      fcInnerVerdictIs "unverified" (FactCheckAgent.placeholder c e) = true ∧
      fcExplanation (FactCheckAgent.placeholder c e) =
        some "Fact-check processing failed") := by
  have hnode : factcheck_node fcO s =
      { s with fact_checks := factCheckLoop fcO 0 s.claims } := by
    rw [factcheck_node, if_neg]
    simp [herr, hne]
  refine ⟨by rw [hnode],
    by rw [hnode]; exact factCheckLoop_length fcO 0 s.claims, ?_, ?_, ?_⟩
  · intro i e he
    rw [hnode]
    show (factCheckLoop fcO 0 s.claims)[i]? = _
    rw [factCheckLoop_getElem]
    simp only [Nat.zero_add]
    cases s.claims[i]? with
    | none => rfl
    | some c => simp [FactCheckAgent.run, he]
  · intro i verdict hv
    rw [hnode]
    show (factCheckLoop fcO 0 s.claims)[i]? = _
    rw [factCheckLoop_getElem]
    simp only [Nat.zero_add]
    cases s.claims[i]? with
    | none => rfl
    | some c => simp [FactCheckAgent.run, hv]
  · intro c e
    exact ⟨rfl, rfl⟩

/-- Witness for C3: three claims with the collaborator failing for index 1
only — `fact_checks[1]` is the `"unverified"` placeholder with its note,
`fact_checks[0]` and `fact_checks[2]` carry their own verdicts, and
`state.error` stays empty. -/
theorem C3_factcheck_failure_isolated_witness :
    errTruthy threeClaimsState = false ∧
    (¬ threeClaimsState.claims.isEmpty) ∧
    (factcheck_node failAtOneFCOracle threeClaimsState).error =
      threeClaimsState.error ∧
    (factcheck_node failAtOneFCOracle threeClaimsState).fact_checks.length =
      3 ∧
    (factcheck_node failAtOneFCOracle threeClaimsState).fact_checks[1]? =
      some (FactCheckAgent.placeholder "c1" "LLM timeout") ∧
    fcInnerVerdictIs "unverified"
      (FactCheckAgent.placeholder "c1" "LLM timeout") = true ∧
    fcExplanation (FactCheckAgent.placeholder "c1" "LLM timeout") =
      some "Fact-check processing failed" ∧
    ((factcheck_node failAtOneFCOracle threeClaimsState).fact_checks[0]?).map
      (fcInnerVerdictIs "verified") = some true ∧
    ((factcheck_node failAtOneFCOracle threeClaimsState).fact_checks[2]?).map
      (fcInnerVerdictIs "verified") = some true ∧
    threeClaimsState.error = Option.none := by
  have h := C3_factcheck_failure_isolated threeClaimsState failAtOneFCOracle
    rfl (by decide)
  exact ⟨rfl, by decide, h.1, h.2.1.trans rfl,
    (h.2.2.1 1 "LLM timeout" rfl).trans rfl,
    (h.2.2.2.2 "c1" "LLM timeout").1, (h.2.2.2.2 "c1" "LLM timeout").2,
    rfl, rfl, rfl⟩

/-! ## C8 -/

/-- C8 counterexample: a concrete run with the Tavily credential missing —
the entire collaborator is unconfigured, yet after the search-enrichment
step `state.error` is still empty: the step logs a warning and leaves
`search_insights` empty instead of recording an error. -/
theorem C8_unconfigured_sets_no_error :
    noTavilyRunOracle.tavilyConfigured = false ∧
    (stateAfterEnrichment noTavilyRunOracle "https://example.com/a" "").error =
      Option.none ∧
    WorkflowState.search_insights
      (stateAfterEnrichment noTavilyRunOracle "https://example.com/a" "") =
      [] ∧
    WorkflowState.claims
      (stateAfterEnrichment noTavilyRunOracle "https://example.com/a" "") =
      ["Paris is the capital of France."] :=
  ⟨rfl, rfl, rfl, rfl⟩

/-- C8 (amended): the search-enrichment step never writes `state.error` at
all: with the credential missing it skips enrichment leaving
`search_insights` empty, and when it does run, each per-claim failure — a
raw search error, or the LLM chain failing (whereupon the agent's own
fallback raises on the missing `overall_sentiment` key) — is absorbed as an
index-aligned placeholder whose status is `"failed"`. -/
theorem C8_enrichment_absorbs_failures (cfg : Bool)
    (tavO : Nat → TavilySearchAgent.Oracle) (s : WorkflowState) :
    (search_enrichment_node cfg tavO s).error = s.error ∧
    (cfg = false → (search_enrichment_node cfg tavO s).search_insights = []) ∧
    (errTruthy s = false → ¬ s.claims.isEmpty → cfg = true →
      (search_enrichment_node cfg tavO s).search_insights.length =
        s.claims.length ∧
      (∀ i r, (tavO i).raw = .err r →
        (search_enrichment_node cfg tavO s).search_insights[i]? =
          (s.claims[i]?).map (fun c => enrichPlaceholder c r)) ∧
      (∀ i a b c' d e, (tavO i).raw = .ok a b c' d →
        (tavO i).chain = .error e →
        (search_enrichment_node cfg tavO s).search_insights[i]? =
          (s.claims[i]?).map
            (fun c => enrichPlaceholder c "KeyError: overall_sentiment"))) ∧
    (∀ c e, entryStatus (enrichPlaceholder c e) = some "failed") := by
  refine ⟨(search_enrichment_node_frame cfg tavO s).2.2.2.2.2, ?_, ?_, ?_⟩
  · intro hcfg
    rw [search_enrichment_node]
    split
    · rfl
    · simp [hcfg]
  · intro herr hne hcfg
    have hnode : search_enrichment_node cfg tavO s =
        { s with search_insights := enrichLoop tavO 0 s.claims } := by
      rw [search_enrichment_node, if_neg (by simp [herr, hne]), if_neg]
      simp [hcfg]
    refine ⟨by rw [hnode]; exact enrichLoop_length tavO 0 s.claims, ?_, ?_⟩
    · intro i r hraw
      rw [hnode]
      show (enrichLoop tavO 0 s.claims)[i]? = _
      rw [enrichLoop_getElem]
      simp only [Nat.zero_add]
      cases s.claims[i]? with
      | none => rfl
      | some c => simp [TavilySearchAgent.run, hraw, enrichPlaceholder]
    · intro i a b c' d e hraw hchain
      rw [hnode]
      show (enrichLoop tavO 0 s.claims)[i]? = _
      rw [enrichLoop_getElem]
      simp only [Nat.zero_add]
      cases s.claims[i]? with
      | none => rfl
      | some c => simp [TavilySearchAgent.run, hraw, hchain]
  · intro c e
    rfl

/-- Witness for C8's amended statement: three claims with the raw search
failing for index 1 only, and a separate unconfigured invocation. -/
theorem C8_enrichment_absorbs_failures_witness :
    (search_enrichment_node true failAtOneTavOracle threeClaimsState).error =
      threeClaimsState.error ∧
    WorkflowState.search_insights
      (search_enrichment_node false failAtOneTavOracle threeClaimsState) =
      [] ∧
    errTruthy threeClaimsState = false ∧
    (¬ threeClaimsState.claims.isEmpty) ∧
    (WorkflowState.search_insights
      (search_enrichment_node true failAtOneTavOracle threeClaimsState)).length
      = 3 ∧
    (WorkflowState.search_insights
      (search_enrichment_node true failAtOneTavOracle threeClaimsState))[1]?
      = some (enrichPlaceholder "c1" "HTTPError 502") ∧
    entryStatus (enrichPlaceholder "c1" "HTTPError 502") = some "failed" := by
  have h := C8_enrichment_absorbs_failures true failAtOneTavOracle
    threeClaimsState
  have hmain := h.2.2.1 rfl (by decide) rfl
  exact ⟨h.1,
    (C8_enrichment_absorbs_failures false failAtOneTavOracle
      threeClaimsState).2.1 rfl,
    rfl, by decide, hmain.1.trans rfl,
    (hmain.2.1 1 "HTTPError 502" rfl).trans rfl,
    h.2.2.2 "c1" "HTTPError 502"⟩

/-! ## C4 -/

theorem stateAfterCredibility_fields (o : RunOracle) (url sel : String) :
    (stateAfterCredibility o url sel).claims = [] ∧
    (stateAfterCredibility o url sel).fact_checks = [] ∧
    (stateAfterCredibility o url sel).search_insights = [] :=
  ⟨((credibility_node_frame o.cred (initialState url sel)).2.2.1).trans rfl,
   ((credibility_node_frame o.cred (initialState url sel)).2.2.2.1).trans rfl,
   ((credibility_node_frame o.cred (initialState url sel)).2.2.2.2).trans rfl⟩

theorem stateAfterExtraction_fields (o : RunOracle) (url sel : String) :
    (stateAfterExtraction o url sel).fact_checks = [] ∧
    (stateAfterExtraction o url sel).search_insights = [] :=
  ⟨((extraction_node_frame o.extract
      (stateAfterCredibility o url sel)).2.2.2.1).trans
      (stateAfterCredibility_fields o url sel).2.1,
   ((extraction_node_frame o.extract
      (stateAfterCredibility o url sel)).2.2.2.2).trans
      (stateAfterCredibility_fields o url sel).2.2⟩

/-- C4 counterexample: a run that reaches the FactCheck step with one
extracted claim while the Tavily credential is missing — `fact_checks` has
one entry but `search_insights` is empty, so
`len(fact_checks) == len(search_insights) == len(claims)` fails. -/
theorem C4_alignment_fails_without_tavily :
    (WorkflowState.claims
      (stateAfterFactCheck noTavilyRunOracle "https://example.com/a" "")).length
      = 1 ∧
    (WorkflowState.fact_checks
      (stateAfterFactCheck noTavilyRunOracle "https://example.com/a" "")).length
      = 1 ∧
    (WorkflowState.search_insights
      (stateAfterFactCheck noTavilyRunOracle "https://example.com/a" "")).length
      = 0 :=
  ⟨rfl, rfl, rfl⟩

/-- C4 (amended): whenever the search collaborator is configured
(`TAVILY_API_KEY` truthy), every run satisfies the index-alignment invariant
at the FactCheck step — `len(fact_checks) = len(search_insights) =
len(claims)`, with entry `i` of each sequence carrying `claims[i]` (a
per-claim failure yields a placeholder at its index, never a shorter list);
with the collaborator unconfigured, `search_insights` is left empty
regardless of `claims`. -/
theorem C4_index_alignment (o : RunOracle) (url sel : String)
    (hcfg : o.tavilyConfigured = true) :
    (stateAfterFactCheck o url sel).fact_checks.length =
      (stateAfterFactCheck o url sel).claims.length ∧
    (stateAfterFactCheck o url sel).search_insights.length =
      (stateAfterFactCheck o url sel).claims.length ∧
    (∀ (i : Nat) (c : String),
      (stateAfterFactCheck o url sel).claims[i]? = some c →
      ((stateAfterFactCheck o url sel).fact_checks[i]?).map entryClaim =
        some (some c) ∧
      ((stateAfterFactCheck o url sel).search_insights[i]?).map entryClaim =
        some (some c)) := by
  have h2f := stateAfterExtraction_fields o url sel
  by_cases he : errTruthy (stateAfterExtraction o url sel) = true
  · have hcl : (stateAfterExtraction o url sel).claims = [] :=
      extraction_node_claims_of_err o.extract (stateAfterCredibility o url sel)
        (stateAfterCredibility_fields o url sel).1 he
    have h3 : stateAfterEnrichment o url sel =
        { stateAfterExtraction o url sel with search_insights := [] } := by
      rw [stateAfterEnrichment, search_enrichment_node, if_pos (Or.inl he)]
    have he3 : errTruthy (stateAfterEnrichment o url sel) = true := by
      rw [h3]; exact he
    have h4 : stateAfterFactCheck o url sel = stateAfterEnrichment o url sel := by
      rw [stateAfterFactCheck]
      exact factcheck_node_skip o.factcheck _ he3
    rw [h4, h3]
    refine ⟨?_, ?_, ?_⟩
    · show (stateAfterExtraction o url sel).fact_checks.length =
        (stateAfterExtraction o url sel).claims.length
      rw [h2f.1, hcl]
      rfl
    · show ([] : List PyVal).length =
        (stateAfterExtraction o url sel).claims.length
      rw [hcl]
      rfl
    · intro i c hic
      exfalso
      have hic2 : (stateAfterExtraction o url sel).claims[i]? = some c := hic
      rw [hcl] at hic2
      simp at hic2
  · by_cases hcl : (stateAfterExtraction o url sel).claims.isEmpty
    · have hclnil : (stateAfterExtraction o url sel).claims = [] :=
        List.isEmpty_iff.mp hcl
      have h3 : stateAfterEnrichment o url sel =
          { stateAfterExtraction o url sel with search_insights := [] } := by
        rw [stateAfterEnrichment, search_enrichment_node,
          if_pos (Or.inr hcl)]
      have h4 : stateAfterFactCheck o url sel = stateAfterEnrichment o url sel := by
        rw [stateAfterFactCheck, factcheck_node, if_pos]
        right
        rw [h3]
        exact hcl
      rw [h4, h3]
      refine ⟨?_, ?_, ?_⟩
      · show (stateAfterExtraction o url sel).fact_checks.length =
          (stateAfterExtraction o url sel).claims.length
        rw [h2f.1, hclnil]
        rfl
      · show ([] : List PyVal).length =
          (stateAfterExtraction o url sel).claims.length
        rw [hclnil]
        rfl
      · intro i c hic
        exfalso
        have hic2 : (stateAfterExtraction o url sel).claims[i]? = some c := hic
        rw [hclnil] at hic2
        simp at hic2
    · have h3 : stateAfterEnrichment o url sel =
          { stateAfterExtraction o url sel with
              search_insights :=
                enrichLoop o.tav 0 (stateAfterExtraction o url sel).claims } := by
        rw [stateAfterEnrichment, search_enrichment_node,
          if_neg (by simp [he, hcl]), if_neg]
        simp [hcfg]
      have he3 : errTruthy (stateAfterEnrichment o url sel) = false := by
        rw [h3]
        simpa using he
      have hcl3 : (stateAfterEnrichment o url sel).claims =
          (stateAfterExtraction o url sel).claims := by
        rw [h3]
      have hins3 : (stateAfterEnrichment o url sel).search_insights =
          enrichLoop o.tav 0 (stateAfterExtraction o url sel).claims := by
        rw [h3]
      have h4 : stateAfterFactCheck o url sel =
          { stateAfterEnrichment o url sel with
              fact_checks :=
                factCheckLoop o.factcheck 0
                  (stateAfterEnrichment o url sel).claims } := by
        rw [stateAfterFactCheck, factcheck_node, if_neg]
        simp [he3, hcl3, hcl]
      rw [h4]
      refine ⟨?_, ?_, ?_⟩
      · show (factCheckLoop o.factcheck 0
            (stateAfterEnrichment o url sel).claims).length =
          (stateAfterEnrichment o url sel).claims.length
        rw [factCheckLoop_length]
      · show (stateAfterEnrichment o url sel).search_insights.length =
          (stateAfterEnrichment o url sel).claims.length
        rw [hins3, enrichLoop_length, hcl3]
      · intro i c hic
        have hic3 : (stateAfterEnrichment o url sel).claims[i]? = some c := hic
        have hic2 : (stateAfterExtraction o url sel).claims[i]? = some c := by
          rw [← hcl3]
          exact hic3
        constructor
        · show ((factCheckLoop o.factcheck 0
              (stateAfterEnrichment o url sel).claims)[i]?).map entryClaim =
            some (some c)
          rw [factCheckLoop_getElem]
          simp only [Nat.zero_add]
          rw [hic3]
          simp [fcRun_entryClaim]
        · show (((stateAfterEnrichment o url sel).search_insights)[i]?).map
            entryClaim = some (some c)
          rw [hins3, enrichLoop_getElem]
          simp only [Nat.zero_add]
          rw [hic2]
          simp [enrichResult_entryClaim]

/-- Witness for C4's amended statement at a concrete configured run with one
factual claim. -/
theorem C4_index_alignment_witness :
    demoRunOracle.tavilyConfigured = true ∧
    (WorkflowState.fact_checks
      (stateAfterFactCheck demoRunOracle "https://example.com/a" "")).length =
      (WorkflowState.claims
        (stateAfterFactCheck demoRunOracle "https://example.com/a" "")).length ∧
    (WorkflowState.search_insights
      (stateAfterFactCheck demoRunOracle "https://example.com/a" "")).length =
      (WorkflowState.claims
        (stateAfterFactCheck demoRunOracle "https://example.com/a" "")).length ∧
    (WorkflowState.claims
      (stateAfterFactCheck demoRunOracle "https://example.com/a" ""))[0]? =
      some "Paris is the capital of France." ∧
    ((WorkflowState.fact_checks
      (stateAfterFactCheck demoRunOracle "https://example.com/a" ""))[0]?).map
      entryClaim = some (some "Paris is the capital of France.") ∧
    ((WorkflowState.search_insights
      (stateAfterFactCheck demoRunOracle "https://example.com/a" ""))[0]?).map
      entryClaim = some (some "Paris is the capital of France.") := by
  have h := C4_index_alignment demoRunOracle "https://example.com/a" "" rfl
  have h0 := h.2.2 0 "Paris is the capital of France." rfl
  exact ⟨rfl, h.1, h.2.1, rfl, h0.1, h0.2⟩

/-! ## C5 -/

theorem frameAgrees_refl (a : WorkflowState) : frameAgrees a a :=
  ⟨rfl, rfl, rfl, rfl, rfl, rfl, rfl⟩

theorem frameAgrees_of_eq {a b : WorkflowState} (h : a = b) : frameAgrees a b :=
  h ▸ frameAgrees_refl a

theorem frameAgrees_trans {a b c : WorkflowState} (h1 : frameAgrees a b)
    (h2 : frameAgrees b c) : frameAgrees a c :=
  ⟨h1.1.trans h2.1, h1.2.1.trans h2.2.1, h1.2.2.1.trans h2.2.2.1,
   h1.2.2.2.1.trans h2.2.2.2.1, h1.2.2.2.2.1.trans h2.2.2.2.2.1,
   h1.2.2.2.2.2.1.trans h2.2.2.2.2.2.1, h1.2.2.2.2.2.2.trans h2.2.2.2.2.2.2⟩

theorem runTrace_eq (url sel : String) (o : RunOracle) :
    runTrace url sel o =
      [initialState url sel,
       stateAfterCredibility o url sel,
       stateAfterExtraction o url sel,
       stateAfterEnrichment o url sel,
       stateAfterFactCheck o url sel,
       compile_report_node o.compile (stateAfterFactCheck o url sel)] := by
  have hd : decide_next_step (stateAfterCredibility o url sel) =
      "extraction_node" := (graphInvoke_never_ends_early o url sel).1
  rw [runTrace, if_neg (by rw [hd]; decide)]

/-- C5: for every run, once `state.error` is non-empty at some point of the
trace, every later state of the trace agrees with it on every field except
`overall_verdict`, `summary` and `sources` (and in fact on `error` too):
`url`, `selection`, `credibility`, `claims`, `fact_checks` and
`search_insights` keep the values they had when the error was set. -/
theorem C5_error_frame (url sel : String) (o : RunOracle) (i j : Nat)
    (hij : i ≤ j) (a b : WorkflowState)
    (ha : (runTrace url sel o)[i]? = some a)
    (hb : (runTrace url sel o)[j]? = some b)
    (herr : errTruthy a = true) :
    frameAgrees a b := by
  have h12 : errTruthy (stateAfterCredibility o url sel) = true →
      stateAfterExtraction o url sel = stateAfterCredibility o url sel :=
    fun h => extraction_node_skip o.extract _ h
  have h23 : errTruthy (stateAfterExtraction o url sel) = true →
      stateAfterEnrichment o url sel = stateAfterExtraction o url sel :=
    fun h => search_enrichment_node_skip _ _ _ h
      (stateAfterExtraction_fields o url sel).2
  have h34 : errTruthy (stateAfterEnrichment o url sel) = true →
      stateAfterFactCheck o url sel = stateAfterEnrichment o url sel :=
    fun h => factcheck_node_skip o.factcheck _ h
  have h45 : frameAgrees (stateAfterFactCheck o url sel)
      (compile_report_node o.compile (stateAfterFactCheck o url sel)) :=
    compile_report_node_frame o.compile (stateAfterFactCheck o url sel)
  rw [runTrace_eq] at ha hb
  have hj6 : j < 6 := by
    by_contra hj
    rw [List.getElem?_eq_none (by simpa using Nat.le_of_not_lt hj)] at hb
    exact Option.noConfusion hb
  have hi6 : i < 6 := Nat.lt_of_le_of_lt hij hj6
  interval_cases i <;> interval_cases j <;>
    simp only [List.getElem?_cons_zero, List.getElem?_cons_succ,
      Option.some.injEq] at ha hb <;>
    subst ha <;> subst hb
  -- i = 0: the initial state has no error — contradiction in all six cases
  · simp [errTruthy, initialState] at herr
  · simp [errTruthy, initialState] at herr
  · simp [errTruthy, initialState] at herr
  · simp [errTruthy, initialState] at herr
  · simp [errTruthy, initialState] at herr
  · simp [errTruthy, initialState] at herr
  -- i = 1
  · exact frameAgrees_refl _
  · exact frameAgrees_of_eq (h12 herr).symm
  · have e2 := h12 herr
    have herr2 : errTruthy (stateAfterExtraction o url sel) = true := by
      rw [e2]; exact herr
    exact frameAgrees_of_eq ((h23 herr2).trans e2).symm
  · have e2 := h12 herr
    have herr2 : errTruthy (stateAfterExtraction o url sel) = true := by
      rw [e2]; exact herr
    have e3 := h23 herr2
    have herr3 : errTruthy (stateAfterEnrichment o url sel) = true := by
      rw [e3]; exact herr2
    exact frameAgrees_of_eq ((h34 herr3).trans (e3.trans e2)).symm
  · have e2 := h12 herr
    have herr2 : errTruthy (stateAfterExtraction o url sel) = true := by
      rw [e2]; exact herr
    have e3 := h23 herr2
    have herr3 : errTruthy (stateAfterEnrichment o url sel) = true := by
      rw [e3]; exact herr2
    have e4 := h34 herr3
    exact frameAgrees_trans
      (frameAgrees_of_eq (e4.trans (e3.trans e2)).symm) h45
  -- i = 2
  · exact frameAgrees_refl _
  · exact frameAgrees_of_eq (h23 herr).symm
  · have e3 := h23 herr
    have herr3 : errTruthy (stateAfterEnrichment o url sel) = true := by
      rw [e3]; exact herr
    exact frameAgrees_of_eq ((h34 herr3).trans e3).symm
  · have e3 := h23 herr
    have herr3 : errTruthy (stateAfterEnrichment o url sel) = true := by
      rw [e3]; exact herr
    have e4 := h34 herr3
    exact frameAgrees_trans (frameAgrees_of_eq (e4.trans e3).symm) h45
  -- i = 3
  · exact frameAgrees_refl _
  · exact frameAgrees_of_eq (h34 herr).symm
  · exact frameAgrees_trans (frameAgrees_of_eq (h34 herr).symm) h45
  -- i = 4
  · exact frameAgrees_refl _
  · exact h45
  -- i = 5
  · exact frameAgrees_refl _

/-- Witness for C5 at the concrete low-trust run: the error is set after
`credibility_node` (index 1 of the trace) and the final state (index 5)
agrees with it on all frame fields. -/
theorem C5_error_frame_witness :
    (1 : Nat) ≤ 5 ∧
    (runTrace "https://example.com/a" "" lowTrustRunOracle)[1]? =
      some (stateAfterCredibility lowTrustRunOracle "https://example.com/a" "") ∧
    (runTrace "https://example.com/a" "" lowTrustRunOracle)[5]? =
      some (compile_report_node lowTrustRunOracle.compile
        (stateAfterFactCheck lowTrustRunOracle "https://example.com/a" "")) ∧
    errTruthy
      (stateAfterCredibility lowTrustRunOracle "https://example.com/a" "") =
      true ∧
    frameAgrees
      (stateAfterCredibility lowTrustRunOracle "https://example.com/a" "")
      (compile_report_node lowTrustRunOracle.compile
        (stateAfterFactCheck lowTrustRunOracle "https://example.com/a" "")) := by
  refine ⟨by decide, rfl, rfl, rfl, ?_⟩
  exact C5_error_frame "https://example.com/a" "" lowTrustRunOracle 1 5
    (by decide) _ _ rfl rfl rfl
